import Mathlib

/-!
Verification of the video-backend layer of the timelapse generator.

This file is a shallow embedding, in Lean 4, of the parts of
`src/timelapse_generator/video/` that the verified properties are about:

* `encoder.py` — `VideoEncoder.get_resolution_for_aspect_ratio` and
  `VideoEncoder.ensure_even_dimensions`;
* `backends/opencv_backend.py` — construction, `validate_settings`,
  `write_frame`, `close`;
* `backends/ffmpegcv_backend.py` — construction and `write_frame`;
* `backends/registry.py` — the registration dictionary, availability
  cache, priorities, `get_best_backend`, `create_backend`;
* `generator.py` — `_create_backend_instance` (fallback chain), the
  per-image frame loop of `_generate_with_backend` (skip accounting),
  the dimension negotiation of `generate_video`, and the output-file
  verification after `backend.close()`.

Python real arithmetic is modelled over `ℚ`, Python `int` over `Int`
(Python `%` with positive modulus agrees with Lean's `Int` `%`),
Python `int(...)` truncation over `pyTrunc`, and raising code over
`Except`/`Option` results.  Effectful collaborators (the cv2 writer, the
filesystem, hardware probes, the progress callback) appear as explicit
parameters recording their observable outcome.
-/

namespace TimelapseGen

/-- Python `int()` applied to a real (here rational) value: truncation
toward zero. -/
def pyTrunc (q : ℚ) : Int := if 0 ≤ q then ⌊q⌋ else ⌈q⌉

/-- Python `str.lower()` (for the ASCII preset names it is applied to),
written structurally over the character list. -/
def pyLower (s : String) : String := ⟨s.data.map Char.toLower⟩

/-- Python truthiness for an optional string argument used as
`value or default` / `if value: ... = value`: `None` and the empty
string both fall back to the default. -/
def pyStrOr (v : Option String) (d : String) : String :=
  match v with
  | none => d
  | some s => if s.isEmpty then d else s

/-- Python truthiness for an optional integer argument used as
`value or default`: `None` and `0` both fall back to the default. -/
def pyIntOr (v : Option Int) (d : Int) : Int :=
  match v with
  | none => d
  | some n => if n = 0 then d else n

/-- `VideoEncoder.ensure_even_dimensions` (`encoder.py` lines 155-170);
identical code appears as `OpenCVBackend._ensure_even_dimensions`
(`opencv_backend.py` lines 314-328) and
`FFmpegCVBackend._ensure_even_dimensions` (`ffmpegcv_backend.py` lines
247-253): an odd width or height is decremented by one, an even one is
kept. -/
def ensure_even_dimensions (width height : Int) : Int × Int :=
  (if width % 2 ≠ 0 then width - 1 else width,
   if height % 2 ≠ 0 then height - 1 else height)

/-- `VideoEncoder.get_resolution_for_aspect_ratio` (`encoder.py` lines
124-153).  `original_aspect`/`target_aspect` are the Python float
divisions modelled over `ℚ`; `int(...)` is `pyTrunc`. -/
def get_resolution_for_aspect_ratio (original_width original_height : Int)
    (target_resolution : Option (Int × Int)) : Int × Int :=
  match target_resolution with
  | none => (original_width, original_height)
  | some (target_width, target_height) =>
    let original_aspect : ℚ := (original_width : ℚ) / (original_height : ℚ)
    let target_aspect : ℚ := (target_width : ℚ) / (target_height : ℚ)
    if |original_aspect - target_aspect| < 1/100 then
      (target_width, target_height)
    else if original_aspect > target_aspect then
      (target_width, pyTrunc ((target_width : ℚ) / original_aspect))
    else
      (pyTrunc ((target_height : ℚ) * original_aspect), target_height)

/-- The dimension negotiation of `VideoGenerator.generate_video`
(`generator.py` lines 159-166): apply the aspect-ratio rescale only when
a target resolution override was requested, then always force even
dimensions. -/
def negotiate_dimensions (width height : Int)
    (resolution : Option (Int × Int)) : Int × Int :=
  let wh :=
    match resolution with
    | some r => get_resolution_for_aspect_ratio width height (some r)
    | none => (width, height)
  ensure_even_dimensions wh.1 wh.2

/-! ### The OpenCV backend (`backends/opencv_backend.py`) -/

/-- The state of an `OpenCVBackend` instance: the settings fixed by
`__init__` (lines 67-117) plus the writer lifecycle fields
`_writer`/`_is_opened` (`writer_allocated` stands for
`self._writer is not None`). -/
structure OpenCVBackend where
  fps : Int
  width : Int
  height : Int
  codec : String
  bitrate : String
  crf : Int
  preset : String
  quality_preset : String
  use_color_conversion : Bool
  writer_allocated : Bool
  is_opened : Bool
deriving DecidableEq, Repr

/-- `OpenCVBackend.QUALITY_PRESETS` (lines 40-65): quality name to
`(bitrate, crf, preset, codec)`, `none` for an unknown preset. -/
def opencvQualityPresets (q : String) : Option (String × Int × String × String) :=
  if q = "low" then some ("2M", 28, "fast", "mp4v")
  else if q = "medium" then some ("5M", 23, "medium", "mp4v")
  else if q = "high" then some ("10M", 18, "slow", "mp4v")
  else if q = "ultra" then some ("20M", 15, "veryslow", "mp4v")
  else none

/-- The keys of `OpenCVBackend.CODECS` (lines 30-37), which is what the
`supported_codecs` property returns (lines 124-127). -/
def opencvSupportedCodecs : List String :=
  ["mp4v", "x264", "x265", "avc1", "h264", "hevc"]

/-- `OpenCVBackend.__init__` (lines 67-117): raises `ValueError` on an
unknown quality preset; a codec or bitrate argument overrides the preset
only when truthy; dimensions are forced even at the end of construction
(line 117), so before `validate_settings` or `open` can run. -/
def OpenCVBackend.make (fps width height : Int) (codec : Option String)
    (bitrate : Option String) (quality_preset : String) :
    Except String OpenCVBackend :=
  let qp := pyLower quality_preset
  match opencvQualityPresets qp with
  | none => .error "Invalid quality preset"
  | some (preset_bitrate, preset_crf, preset_name, preset_codec) =>
    let wh := ensure_even_dimensions width height
    .ok { fps := fps
          width := wh.1
          height := wh.2
          codec := pyStrOr codec preset_codec
          bitrate := pyStrOr bitrate preset_bitrate
          crf := preset_crf
          preset := preset_name
          quality_preset := qp
          use_color_conversion := true
          writer_allocated := false
          is_opened := false }

/-- `OpenCVBackend.validate_settings` (lines 262-294), error messages in
source order. -/
def OpenCVBackend.validate_settings (b : OpenCVBackend) : List String :=
  (if b.fps ≤ 0 then ["FPS must be greater than 0"] else []) ++
  (if b.fps > 120 then ["FPS should not exceed 120 for most use cases"] else []) ++
  (if b.width ≤ 0 ∨ b.height ≤ 0 then
    ["Width and height must be greater than 0"] else []) ++
  (if b.width > 8192 ∨ b.height > 8192 then
    ["Width and height should not exceed 8192 pixels"] else []) ++
  (if b.codec ∈ opencvSupportedCodecs then [] else ["Unsupported codec"]) ++
  (if b.width % 2 ≠ 0 ∨ b.height % 2 ≠ 0 then
    ["Width and height must be even for most codecs"] else []) ++
  (if (b.codec = "mp4v" ∨ b.codec = "x264") ∧ (b.width < 16 ∨ b.height < 16) then
    ["Width and height must be at least 16 pixels for this codec"] else [])

/-! ### The FFmpegCV backend (`backends/ffmpegcv_backend.py`) -/

/-- The outcome of the hardware capability probes
`_is_nvidia_available`/`_is_intel_qsv_available`/`_is_amd_available`
(`ffmpegcv_backend.py` lines 189-227): each probe attempts a throwaway
encoder open and reduces every failure to `false`. -/
structure HardwareEnv where
  nvidia : Bool
  intel : Bool
  amd : Bool
deriving DecidableEq, Repr

/-- The state of an `FFmpegCVBackend` instance as fixed by `__init__`
(lines 57-124) plus the writer lifecycle fields. -/
structure FFmpegCVBackend where
  fps : Int
  width : Int
  height : Int
  quality_preset : String
  hardware_accel : String
  gpu_id : Int
  preset : String
  crf : Int
  codec : String
  bitrate : String
  pix_fmt : String
  thread_count : Int
  writer_allocated : Bool
  is_opened : Bool
deriving DecidableEq, Repr

/-- `FFmpegCVBackend.FFMPEG_PRESETS` and `CRF_VALUES` (lines 42-55):
quality name to `(preset, crf)`. -/
def ffmpegQualityPresets (q : String) : Option (String × Int) :=
  if q = "low" then some ("fast", 28)
  else if q = "medium" then some ("medium", 23)
  else if q = "high" then some ("slow", 18)
  else if q = "ultra" then some ("veryslow", 15)
  else none

/-- `FFmpegCVBackend._select_optimal_codec` (lines 176-187), with the
probe results supplied by `env`. -/
def ffmpegSelectOptimalCodec (hardware_accel : String) (env : HardwareEnv) : String :=
  if (hardware_accel = "auto" ∨ hardware_accel = "nvidia") ∧ env.nvidia then "h264_nvenc"
  else if (hardware_accel = "auto" ∨ hardware_accel = "intel") ∧ env.intel then "h264_qsv"
  else if (hardware_accel = "auto" ∨ hardware_accel = "amd") ∧ env.amd then "h264_amf"
  else "libx264"

/-- `FFmpegCVBackend._get_default_bitrate` (lines 229-245).  Note the
source calls it (line 109) before the dimensions are forced even
(line 124), so it sees the original width/height. -/
def ffmpegDefaultBitrate (width height : Int) (base : Int) : String :=
  let megapixels : ℚ := ((width * height : Int) : ℚ) / 1000000
  let bitrate_mbps : ℚ := (base : ℚ) * max (megapixels / 2) (1/2)
  toString (pyTrunc bitrate_mbps) ++ "M"

/-- `FFmpegCVBackend.__init__` (lines 57-124): quality preset lookup
(raises on unknown), `preset or ...`/`crf or ...`/`codec or ...`/
`bitrate or ...` with Python truthiness, codec selection from the
hardware probes, and the dimensions forced even at the end of
construction (line 124). -/
def FFmpegCVBackend.make (fps width height : Int) (codec : Option String)
    (bitrate : Option String) (quality_preset : String)
    (preset : Option String) (crf : Option Int) (pix_fmt : Option String)
    (hardware_accel : String) (gpu_id : Int) (env : HardwareEnv) :
    Except String FFmpegCVBackend :=
  let qp := pyLower quality_preset
  match ffmpegQualityPresets qp with
  | none => .error "Invalid quality preset"
  | some (preset_name, preset_crf) =>
    let base : Int :=
      if qp = "low" then 2 else if qp = "medium" then 5
      else if qp = "high" then 10 else 20
    let wh := ensure_even_dimensions width height
    .ok { fps := fps
          width := wh.1
          height := wh.2
          quality_preset := qp
          hardware_accel := hardware_accel
          gpu_id := gpu_id
          preset := pyStrOr preset preset_name
          crf := pyIntOr crf preset_crf
          codec := pyStrOr codec (ffmpegSelectOptimalCodec hardware_accel env)
          bitrate := pyStrOr bitrate (ffmpegDefaultBitrate width height base)
          pix_fmt := pyStrOr pix_fmt "yuv420p"
          thread_count := 0
          writer_allocated := false
          is_opened := false }

/-! ### Frames and `write_frame` -/

/-- A numpy frame as the backends observe it: `ndim = len(frame.shape)`,
and for a three-dimensional array `shape = (height, width, channels)`.
Pixel contents are irrelevant to the verified properties, except for the
channel order recorded in `bgr`. -/
structure Frame where
  ndim : Nat
  height : Int
  width : Int
  channels : Nat
  bgr : Bool
deriving DecidableEq, Repr

/-- `cv2.resize(frame, (w, h), interpolation=cv2.INTER_AREA)`: a
multi-channel input keeps its channel axis; a single-channel `(h, w, 1)`
input comes back as a two-dimensional `(h, w)` array, because OpenCV's
Python binding squeezes single-channel Mats. -/
def cvResize (f : Frame) (w h : Int) : Frame :=
  if f.ndim = 3 ∧ f.channels = 1 then
    { ndim := 2, height := h, width := w, channels := 1, bgr := f.bgr }
  else { f with width := w, height := h }

/-- `frame.shape[2]`: `some` of the channel count for an array with at
least three axes, `none` (an `IndexError`) otherwise. -/
def shapeChannels (f : Frame) : Option Nat :=
  if 3 ≤ f.ndim then some f.channels else none

/-- `OpenCVBackend.write_frame` (lines 190-228).  `writer_write_ok` is
whether the underlying `cv2.VideoWriter.write` call reports success.  On
success the returned `Frame` is the array actually handed to the
writer.  Line 219 evaluates `frame.shape[2]` after the resize — only
when `use_color_conversion` is truthy, because Python's `and`
short-circuits — which raises `IndexError` when the resize squeezed a
single-channel frame to 2-D (the branch body itself is `pass`). -/
def OpenCVBackend.write_frame (b : OpenCVBackend) (f : Frame)
    (writer_write_ok : Bool) : Except String Frame :=
  if ¬ b.is_opened ∨ ¬ b.writer_allocated then
    .error "Video writer not initialized. Call open() first."
  else if f.ndim ≠ 3 then
    .error "Frame must have 3 dimensions"
  else if ¬ (f.channels = 1 ∨ f.channels = 3 ∨ f.channels = 4) then
    .error "Frame must have 1, 3, or 4 channels"
  else
    let f := if (f.height, f.width) ≠ (b.height, b.width) then
      cvResize f b.width b.height else f
    if b.use_color_conversion ∧ (shapeChannels f).isNone then
      .error "IndexError"
    else if writer_write_ok then .ok f
    else .error "Failed to write frame to video"

/-- `FFmpegCVBackend.write_frame` (lines 308-343).  `writer_write_ok` is
whether the underlying `writer.write` call succeeds.  Line 335 evaluates
`frame.shape[2]` unconditionally after the resize, raising `IndexError`
when the resize squeezed a single-channel frame to 2-D; a three-channel
frame is flipped from BGR to RGB before writing. -/
def FFmpegCVBackend.write_frame (b : FFmpegCVBackend) (f : Frame)
    (writer_write_ok : Bool) : Except String Frame :=
  if ¬ b.is_opened ∨ ¬ b.writer_allocated then
    .error "Video writer not initialized. Call open() first."
  else if f.ndim ≠ 3 then
    .error "Frame must have 3 dimensions"
  else
    let f := if (f.height, f.width) ≠ (b.height, b.width) then
      cvResize f b.width b.height else f
    if (shapeChannels f).isNone then .error "IndexError"
    else
      let frame_rgb :=
        if shapeChannels f = some 3 then { f with bgr := !f.bgr } else f
      if writer_write_ok then .ok frame_rgb
      else .error "Failed to write frame to video"

/-! ### `close` (`opencv_backend.py` lines 230-240,
`ffmpegcv_backend.py` lines 345-355)

Both backends implement `close` identically: when `self._writer` is not
`None`, call `release()` inside `try/except` (so an exception from
`release` is logged and swallowed, never propagated) and in the
`finally` block set `_writer = None` and `_is_opened = False`; when the
writer is already `None` — never opened, or closed before — do nothing.
`backendClose` models one instance together with its output file:
`release_effect` is the observable effect of `writer.release()` on the
file (finalizing it, or leaving it partial if `release` raised).  Since
every exception is caught, `close` is a total function on states. -/

/-- Writer lifecycle and output-file state shared by both backends. -/
structure CloseState where
  writer_allocated : Bool
  is_opened : Bool
  output_file : Option Nat
deriving DecidableEq, Repr

/-- The `close` method of either backend. -/
def backendClose (release_effect : Option Nat → Option Nat)
    (s : CloseState) : CloseState :=
  if s.writer_allocated then
    { writer_allocated := false
      is_opened := false
      output_file := release_effect s.output_file }
  else s

/-! ### The backend registry (`backends/registry.py`)

`BackendRegistry._backends` is an insertion-ordered Python dict from
backend name to backend class, `_availability_cache` a dict from name to
probe result.  A backend class is summarized by the three facts the
registry and the generator observe about it: its optional `priority`
class attribute, the result of its `is_available()` probe (every
exception reduced to `false`, lines 108-116), and whether calling the
class with the job's keyword arguments constructs an instance
(`create_backend`, lines 221-224). -/

/-- What the registry observes of a registered backend class. -/
structure BackendClass where
  priorityAttr : Option Int
  is_available : Bool
  constructs : Bool
deriving DecidableEq, Repr

/-- Insertion-ordered dict write `d[k] = v`: an existing key keeps its
position, a new key is appended. -/
def dictSet (l : List (String × α)) (k : String) (v : α) : List (String × α) :=
  if l.any (fun p => p.1 == k) then
    l.map (fun p => if p.1 == k then (k, v) else p)
  else l ++ [(k, v)]

/-- Dict deletion / `dict.pop(k, None)`. -/
def dictPop (l : List (String × α)) (k : String) : List (String × α) :=
  l.filter (fun p => p.1 != k)

/-- Dict lookup `d.get(k)`. -/
def dictGet (l : List (String × α)) (k : String) : Option α :=
  (l.find? (fun p => p.1 == k)).map (fun p => p.2)

/-- The registry's process-wide state. -/
structure Registry where
  backends : List (String × BackendClass)
  cache : List (String × Bool)
deriving DecidableEq, Repr

/-- `BackendRegistry.register` (lines 23-40): store (overwriting a
previous entry for the name) and invalidate the cached availability. -/
def Registry.register (reg : Registry) (name : String) (cls : BackendClass) :
    Registry :=
  { backends := dictSet reg.backends name cls
    cache := dictPop reg.cache name }

/-- `BackendRegistry.unregister` (lines 42-52): delete the entry and its
cached availability when present, otherwise do nothing. -/
def Registry.unregister (reg : Registry) (name : String) : Registry :=
  if reg.backends.any (fun p => p.1 == name) then
    { backends := dictPop reg.backends name
      cache := dictPop reg.cache name }
  else reg

/-- `BackendRegistry.list_backends` (lines 66-73): registered names in
registration order. -/
def Registry.list_backends (reg : Registry) : List String :=
  reg.backends.map (fun p => p.1)

/-- `BackendRegistry.is_backend_available` (lines 89-116): the cache
answers first; otherwise an unknown name is unavailable and a known one
answers its probe.  (The source also writes the probe result back into
the cache; the value returned, which is all the verified properties
consume, is unchanged by that write.) -/
def Registry.is_backend_available (reg : Registry) (name : String) : Bool :=
  match dictGet reg.cache name with
  | some b => b
  | none =>
    match dictGet reg.backends name with
    | none => false
    | some cls => cls.is_available

/-- `BackendRegistry.get_available_backends` (lines 75-87): the
registered backends, in registration order, filtered by availability. -/
def Registry.get_available_backends (reg : Registry) :
    List (String × BackendClass) :=
  reg.backends.filter (fun p => reg.is_backend_available p.1)

/-- `BackendRegistry.get_backend_priority` (lines 118-141): 100 for an
unknown name, the `priority` class attribute when present, else the
built-in default table. -/
def Registry.get_backend_priority (reg : Registry) (name : String) : Int :=
  match dictGet reg.backends name with
  | none => 100
  | some cls =>
    match cls.priorityAttr with
    | some p => p
    | none =>
      if name = "ffmpegcv" then 90
      else if name = "opencv" then 100
      else 100

/-- `BackendRegistry.get_best_backend` (lines 143-160): `None` when no
backend is available, else the head of the available names sorted
ascending by priority (Python's `sorted` is stable, modelled by
`List.mergeSort`). -/
def Registry.get_best_backend (reg : Registry) : Option String :=
  let available := reg.get_available_backends
  if available.isEmpty then none
  else
    ((available.map (fun p => p.1)).mergeSort
      (fun a b => decide (reg.get_backend_priority a ≤ reg.get_backend_priority b))).head?

/-- The module-level `create_backend` factory (`registry.py` lines
201-224) as the generator's `try` block observes it: `some name` when an
instance is created, `none` when any of its three raises occurs (unknown
name, unavailable backend, constructor failure). -/
def Registry.create_backend (reg : Registry) (name : String) : Option String :=
  match dictGet reg.backends name with
  | none => none
  | some cls =>
    if ¬ reg.is_backend_available name then none
    else if cls.constructs then some name else none

/-! ### Backend acquisition with fallback (`generator.py` lines 186-225) -/

/-- The two failures `VideoGenerator._create_backend_instance` can raise:
the primary backend failed and fallback is disabled (line 210), or every
fallback was exhausted (line 225, whose message lists
`list(available.keys())`). -/
inductive AcquisitionError
  | primaryFailed (name : String)
  | allFailed (available_names : List String)
deriving DecidableEq, Repr

/-- `VideoGenerator._create_backend_instance` (lines 186-225): try the
primary backend; on failure raise if fallback is disabled, else walk
`get_available_backends()` in its (registration) order, skipping the
primary's name, returning the first backend that constructs; raise the
aggregate error when none does. -/
def create_backend_instance (reg : Registry) (primary : String)
    (backend_fallback : Bool) : Except AcquisitionError String :=
  match reg.create_backend primary with
  | some n => .ok n
  | none =>
    if ¬ backend_fallback then .error (.primaryFailed primary)
    else
      let available := reg.get_available_backends
      match (available.filter (fun p => p.1 != primary)).find?
          (fun p => (reg.create_backend p.1).isSome) with
      | some p => .ok p.1
      | none => .error (.allFailed (available.map (fun q => q.1)))

/-! ### The frame loop of `_generate_with_backend`
(`generator.py` lines 288-343)

Each validated image runs through the `try` body of the loop.  The
observable outcomes of one iteration are:

* `decodeFails` — `_process_image` returns `None` (it catches its own
  exceptions internally, lines 437-439), so line 321 runs:
  `skipped_count += 1`;
* `writeRaises` — the frame decoded but `backend.write_frame` (line 295)
  raised before `frame_count += 1`; the handler at line 338 runs:
  `skipped_count += 1`;
* `written` — the frame was written, `frame_count += 1` (line 296), and
  the rest of the iteration completed;
* `writtenThenCallbackRaises` — the frame was written and
  `frame_count += 1` executed, but the progress callback (line 315)
  raised; the handler at line 338 then also runs `skipped_count += 1`.
-/

/-- The observable outcome of one frame-loop iteration. -/
inductive ImageOutcome
  | decodeFails
  | writeRaises
  | written
  | writtenThenCallbackRaises
deriving DecidableEq, Repr

/-- The effect of one iteration on `(frame_count, skipped_count)`. -/
def frameLoopStep : Nat × Nat → ImageOutcome → Nat × Nat
  | (fc, sc), .decodeFails => (fc, sc + 1)
  | (fc, sc), .writeRaises => (fc, sc + 1)
  | (fc, sc), .written => (fc + 1, sc)
  | (fc, sc), .writtenThenCallbackRaises => (fc + 1, sc + 1)

/-- The whole loop over the validated images, starting from
`frame_count = 0`, `skipped_count = 0` (lines 239-240). -/
def runFrameLoop (outcomes : List ImageOutcome) : Nat × Nat :=
  outcomes.foldl frameLoopStep (0, 0)

/-! ### Output verification after `backend.close()`
(`generator.py` lines 356-388) -/

/-- The fields of the success dictionary relevant to finalization. -/
structure GenerationSummary where
  success : Bool
  frame_count : Nat
  skipped_count : Nat
  output_size_bytes : Nat
deriving DecidableEq, Repr

/-- `_generate_with_backend` after the loop: `backend.close()` has
completed; the generator checks only `output_path.exists()` (line 360),
raising `RuntimeError("Video file was not created")` when it fails, and
otherwise reads the size and returns the success record (lines 364-388).
`output_exists`/`output_size` are the file-system facts after close. -/
def finalize_output (output_exists : Bool) (output_size : Nat)
    (frame_count skipped_count : Nat) : Except String GenerationSummary :=
  if ¬ output_exists then .error "Video file was not created"
  else .ok { success := true
             frame_count := frame_count
             skipped_count := skipped_count
             output_size_bytes := output_size }

/-! ## Theorems -/

/-! ### C1 — output verification after close -/

/-- C1, counterexample.  The claim says a job succeeds only if the output
file has non-zero size and that zero frames written is a fatal
finalization error.  In the code, after `backend.close()` completes the
generator checks only that the output file exists (`generator.py` line
360): here a job with an existing zero-byte output file and
`frame_count = 0` (all five images skipped) still returns the success
record. -/
theorem C1_counterexample :
    finalize_output true 0 0 5 =
      .ok { success := true, frame_count := 0, skipped_count := 5,
            output_size_bytes := 0 } := by
  rfl

/-- C1, amended.  For every generation job in which the backend's
`close()` completes, the job succeeds if and only if the output file
exists afterwards — its size is read but not checked, and a job with
zero frames written still succeeds; a missing file raises the fatal
`RuntimeError("Video file was not created")`. -/
theorem C1_amended (output_size frame_count skipped_count : Nat) :
    finalize_output true output_size frame_count skipped_count =
      .ok { success := true, frame_count := frame_count,
            skipped_count := skipped_count,
            output_size_bytes := output_size } ∧
    finalize_output false output_size frame_count skipped_count =
      .error "Video file was not created" := by
  exact ⟨rfl, rfl⟩

/-! ### C2 — skip accounting of the frame loop -/

/-- The running counts of the frame loop from any starting pair: every
iteration adds exactly one to `frame_count + skipped_count`, except an
iteration whose progress callback raises after a successful write, which
adds two. -/
theorem frameLoop_foldl_counts (outcomes : List ImageOutcome) :
    ∀ init : Nat × Nat,
      (outcomes.foldl frameLoopStep init).1 + (outcomes.foldl frameLoopStep init).2 =
        init.1 + init.2 + outcomes.length +
          outcomes.count .writtenThenCallbackRaises := by
  induction outcomes with
  | nil => intro init; simp [runFrameLoop]
  | cons o rest ih =>
    intro init
    cases o <;>
      simp only [List.foldl_cons, frameLoopStep, ih, List.count_cons] <;>
      simp <;> omega

/-- C2, counterexample.  The claim asserts
`frame_count + skipped_count = number of validated images` even for jobs
in which the progress callback raises.  A one-image job whose frame
decodes and is written (`frame_count += 1`, `generator.py` line 296) and
whose progress callback then raises (line 315, caught at line 338 where
`skipped_count += 1` runs) ends with both counters at 1: the sum is 2,
not 1. -/
theorem C2_counterexample :
    (runFrameLoop [.writtenThenCallbackRaises]).1 +
        (runFrameLoop [.writtenThenCallbackRaises]).2 ≠
      ([ImageOutcome.writtenThenCallbackRaises] : List ImageOutcome).length := by
  decide

/-- C2, amended.  For every completed job,
`frame_count + skipped_count` equals the number of validated images fed
to the pipeline plus the number of images that were written but whose
progress-callback invocation then raised (each such image is counted
both as written and as skipped).  The claimed equality therefore holds
exactly for jobs with no callback exception after a successful write —
in particular for all jobs where images merely fail to decode or fail to
write. -/
theorem C2_amended (outcomes : List ImageOutcome) :
    (runFrameLoop outcomes).1 + (runFrameLoop outcomes).2 =
      outcomes.length + outcomes.count .writtenThenCallbackRaises := by
  simpa using frameLoop_foldl_counts outcomes (0, 0)

/-! ### C9 — `close` idempotence -/

/-- C9.  For either backend, `close()` is a total function on instance
states (every exception from `writer.release()` is caught, so it never
raises): calling it a second time is a no-op — in particular the
output file finalized by the first close is untouched — and calling it
on an instance that was never successfully opened (`_writer is None`)
changes nothing. -/
theorem C9_close_idempotent (release_effect : Option Nat → Option Nat)
    (s : CloseState) :
    backendClose release_effect (backendClose release_effect s) =
      backendClose release_effect s ∧
    (s.writer_allocated = false → backendClose release_effect s = s) := by
  unfold backendClose
  by_cases h : s.writer_allocated <;> simp [h]

/-- C9, witness: a never-opened instance is unchanged by `close`. -/
theorem C9_close_idempotent_witness :
    backendClose id
        { writer_allocated := false, is_opened := false, output_file := some 7 } =
      { writer_allocated := false, is_opened := false, output_file := some 7 } :=
  (C9_close_idempotent id
    { writer_allocated := false, is_opened := false, output_file := some 7 }).2 rfl

/-! ### C10 — register/unregister round trip -/

/-- C10, counterexample.  The claim quantifies over every registry state
and backend name.  When the name is already registered, `register`
overwrites the existing entry (`registry.py` lines 34-37) and
`unregister` then deletes it, so the round trip loses the original
backend: starting from a registry whose only entry is `"opencv"`,
re-registering and unregistering `"opencv"` leaves `list_backends()`
empty instead of `["opencv"]`. -/
theorem C10_counterexample :
    Registry.list_backends
        (Registry.unregister
          (Registry.register
            { backends := [("opencv", ⟨some 100, true, true⟩)], cache := [] }
            "opencv" ⟨some 100, true, false⟩)
          "opencv") = [] ∧
    Registry.list_backends
        { backends := [("opencv", (⟨some 100, true, true⟩ : BackendClass))],
          cache := [] } = ["opencv"] := by
  exact ⟨rfl, rfl⟩

/-- C10, amended.  For every registry state and every backend name that
is not already registered, `register(name, class)` followed by
`unregister(name)` leaves `list_backends()` exactly as it was:
registration appends the new name and unregistration deletes precisely
that entry. -/
theorem C10_amended (reg : Registry) (name : String) (cls : BackendClass)
    (h : name ∉ reg.list_backends) :
    Registry.list_backends (Registry.unregister (Registry.register reg name cls) name) =
      reg.list_backends := by
  have hk : ∀ p ∈ reg.backends, ¬ (p.1 == name) = true := by
    intro p hp hbeq
    exact h (List.mem_map.mpr ⟨p, hp, (beq_iff_eq.mp hbeq)⟩)
  have hreg : (Registry.register reg name cls).backends =
      reg.backends ++ [(name, cls)] := by
    unfold Registry.register dictSet
    rw [if_neg]
    simp only [List.any_eq_true, not_exists, not_and]
    intro p hp
    exact fun hb => hk p hp hb
  unfold Registry.unregister
  rw [hreg, if_pos]
  · unfold Registry.list_backends dictPop
    rw [List.filter_append]
    have h1 : reg.backends.filter (fun p => p.1 != name) = reg.backends := by
      apply List.filter_eq_self.mpr
      intro p hp
      simpa [bne] using hk p hp
    have h2 : [(name, cls)].filter (fun p => p.1 != name) = [] := by
      simp
    rw [h1, h2, List.append_nil]
  · simp

/-- C10, witness: the round trip on a one-entry registry with a fresh
name. -/
theorem C10_amended_witness :
    Registry.list_backends
        (Registry.unregister
          (Registry.register
            { backends := [("opencv", ⟨some 100, true, true⟩)], cache := [] }
            "ffmpegcv" ⟨some 90, true, true⟩)
          "ffmpegcv")
      = Registry.list_backends
          { backends := [("opencv", (⟨some 100, true, true⟩ : BackendClass))],
            cache := [] } :=
  C10_amended
    { backends := [("opencv", ⟨some 100, true, true⟩)], cache := [] }
    "ffmpegcv" ⟨some 90, true, true⟩ (by decide)

/-! ### C7 — even dimensions forced at construction -/

/-- The spec's description of the dimension forcing: an odd value is
decremented by one, an even value kept. -/
def evenDownSpec (x : Int) : Int := if x % 2 ≠ 0 then x - 1 else x

/-- `ensure_even_dimensions` applies the spec's forcing to each
component. -/
theorem ensure_even_dimensions_eq (w h : Int) :
    ensure_even_dimensions w h = (evenDownSpec w, evenDownSpec h) := rfl

/-- Field values produced by `OpenCVBackend.make`. -/
theorem opencv_make_fields (fps width height : Int)
    (codec bitrate : Option String) (qp : String) (b : OpenCVBackend)
    (hmk : OpenCVBackend.make fps width height codec bitrate qp = .ok b) :
    b.fps = fps ∧ b.width = evenDownSpec width ∧ b.height = evenDownSpec height := by
  simp only [OpenCVBackend.make] at hmk
  split at hmk
  · exact absurd hmk (by simp)
  · cases hmk
    exact ⟨rfl, rfl, rfl⟩

/-- Field values produced by `FFmpegCVBackend.make`. -/
theorem ffmpegcv_make_fields (fps width height : Int)
    (codec bitrate : Option String) (qp : String)
    (preset : Option String) (crf : Option Int) (pix_fmt : Option String)
    (hw_accel : String) (gpu_id : Int) (env : HardwareEnv) (b : FFmpegCVBackend)
    (hmk : FFmpegCVBackend.make fps width height codec bitrate qp preset crf
      pix_fmt hw_accel gpu_id env = .ok b) :
    b.fps = fps ∧ b.width = evenDownSpec width ∧ b.height = evenDownSpec height := by
  simp only [FFmpegCVBackend.make] at hmk
  split at hmk
  · exact absurd hmk (by simp)
  · cases hmk
    exact ⟨rfl, rfl, rfl⟩

/-- C7.  For any width and height passed to construction of either
reference backend, the stored width and height are the input with odd
values decremented by one (even values kept): they are always even,
at most the input, and fixed before `validate_settings` or `open` can
run (both consume the already-constructed instance). -/
theorem C7_constructor_even_dimensions (fps width height : Int)
    (codec bitrate : Option String) (qp : String)
    (preset : Option String) (crf : Option Int) (pix_fmt : Option String)
    (hw_accel : String) (gpu_id : Int) (env : HardwareEnv)
    (cv : OpenCVBackend) (ff : FFmpegCVBackend)
    (hcv : OpenCVBackend.make fps width height codec bitrate qp = .ok cv)
    (hff : FFmpegCVBackend.make fps width height codec bitrate qp preset crf
      pix_fmt hw_accel gpu_id env = .ok ff) :
    cv.width = evenDownSpec width ∧ cv.height = evenDownSpec height ∧
    ff.width = evenDownSpec width ∧ ff.height = evenDownSpec height ∧
    ∀ x : Int, evenDownSpec x % 2 = 0 ∧ evenDownSpec x ≤ x ∧
      (x % 2 = 0 → evenDownSpec x = x) ∧ (x % 2 ≠ 0 → evenDownSpec x = x - 1) := by
  obtain ⟨-, hw1, hh1⟩ :=
    opencv_make_fields fps width height codec bitrate qp cv hcv
  obtain ⟨-, hw2, hh2⟩ :=
    ffmpegcv_make_fields fps width height codec bitrate qp preset crf
      pix_fmt hw_accel gpu_id env ff hff
  refine ⟨hw1, hh1, hw2, hh2, fun x => ?_⟩
  unfold evenDownSpec
  by_cases h : x % 2 = 0
  · simp [h]
  · simp [h]
    omega

/-- The OpenCV instance `OpenCVBackend(fps=30, width=641, height=481)`
constructs (with the `medium` preset defaults). -/
def opencvSample : OpenCVBackend :=
  { fps := 30, width := 640, height := 480, codec := "mp4v", bitrate := "5M",
    crf := 23, preset := "medium", quality_preset := "medium",
    use_color_conversion := true, writer_allocated := false, is_opened := false }

/-- The FFmpegCV instance
`FFmpegCVBackend(fps=30, width=641, height=481)` constructs on a machine
with no hardware acceleration. -/
def ffmpegSample : FFmpegCVBackend :=
  { fps := 30, width := 640, height := 480, quality_preset := "medium",
    hardware_accel := "auto", gpu_id := 0, preset := "medium", crf := 23,
    codec := "libx264", bitrate := "2M", pix_fmt := "yuv420p",
    thread_count := 0, writer_allocated := false, is_opened := false }

/-- The default bitrate computed for a 641×481 medium-quality job:
`0.308321` megapixels, clamped up to the `0.5` factor, gives
`int(5 * 0.5) = 2`. -/
theorem ffmpegDefaultBitrate_641_481 : ffmpegDefaultBitrate 641 481 5 = "2M" := by
  show toString
      (pyTrunc ((5 : ℚ) * (((641 * 481 : Int) : ℚ) / 1000000 / 2 ⊔ 1 / 2))) ++ "M"
    = "2M"
  rw [show (((641 * 481 : Int) : ℚ) / 1000000 / 2 ⊔ 1 / 2) = 1 / 2 from
      max_eq_right (by norm_num)]
  rw [show pyTrunc ((5 : ℚ) * (1 / 2)) = 2 from by
      unfold pyTrunc
      rw [if_pos (by norm_num), Int.floor_eq_iff]
      norm_num]
  rfl

/-- `FFmpegCVBackend(fps=30, width=641, height=481)` on a machine with no
hardware acceleration yields `ffmpegSample`. -/
theorem ffmpegSample_make :
    FFmpegCVBackend.make 30 641 481 none none "medium" none none none "auto" 0
      ⟨false, false, false⟩ = .ok ffmpegSample := by
  simp only [FFmpegCVBackend.make]
  rw [show ffmpegQualityPresets (pyLower "medium") = some ("medium", 23) from rfl]
  simp only [pyStrOr]
  rw [show (if pyLower "medium" = "low" then (2:Int) else
      if pyLower "medium" = "medium" then 5 else
      if pyLower "medium" = "high" then 10 else 20) = 5 from rfl]
  rw [ffmpegDefaultBitrate_641_481]
  rfl

/-- C7, witness: constructing both backends with width 641 and height
481 stores 640×480. -/
theorem C7_constructor_even_dimensions_witness :
    opencvSample.width = evenDownSpec 641 ∧
    opencvSample.height = evenDownSpec 481 ∧
    ffmpegSample.width = evenDownSpec 641 ∧
    ffmpegSample.height = evenDownSpec 481 ∧
    ∀ x : Int, evenDownSpec x % 2 = 0 ∧ evenDownSpec x ≤ x ∧
      (x % 2 = 0 → evenDownSpec x = x) ∧ (x % 2 ≠ 0 → evenDownSpec x = x - 1) :=
  C7_constructor_even_dimensions 30 641 481 none none "medium" none none none
    "auto" 0 ⟨false, false, false⟩ opencvSample ffmpegSample rfl ffmpegSample_make

/-! ### C6 — `validate_settings` on valid inputs -/

/-- C6, counterexample.  The claim says every backend constructed with
`fps > 0` and even, strictly positive width and height validates
cleanly.  `OpenCVBackend.validate_settings` also rejects `fps > 120`
(`opencv_backend.py` lines 273-274): an instance constructed with
`fps=200, width=640, height=480` returns a non-empty error list. -/
theorem C6_counterexample :
    (OpenCVBackend.make 200 640 480 none none "medium").map
        OpenCVBackend.validate_settings =
      .ok ["FPS should not exceed 120 for most use cases"] ∧
    (0 : Int) < 200 ∧ (640 : Int) % 2 = 0 ∧ (0 : Int) < 640 ∧
    (480 : Int) % 2 = 0 ∧ (0 : Int) < 480 := by
  exact ⟨rfl, by omega, by omega, by omega, by omega, by omega⟩

/-- C6, amended.  For every OpenCV backend instance constructed with
`0 < fps ≤ 120`, even width and height in `[16, 8192]`, and a codec in
the backend's supported set (as the preset defaults are),
`validate_settings()` returns the empty list. -/
theorem C6_amended (fps width height : Int) (codec bitrate : Option String)
    (qp : String) (b : OpenCVBackend)
    (hmk : OpenCVBackend.make fps width height codec bitrate qp = .ok b)
    (hfps : 0 < fps) (hfps2 : fps ≤ 120)
    (hweven : width % 2 = 0) (hw1 : 16 ≤ width) (hw2 : width ≤ 8192)
    (hheven : height % 2 = 0) (hh1 : 16 ≤ height) (hh2 : height ≤ 8192)
    (hcodec : b.codec ∈ opencvSupportedCodecs) :
    b.validate_settings = [] := by
  obtain ⟨hbf, hbw, hbh⟩ :=
    opencv_make_fields fps width height codec bitrate qp b hmk
  have hwe : b.width = width := by rw [hbw]; unfold evenDownSpec; simp [hweven]
  have hhe : b.height = height := by rw [hbh]; unfold evenDownSpec; simp [hheven]
  unfold OpenCVBackend.validate_settings
  rw [hbf, hwe, hhe]
  rw [if_neg (by omega), if_neg (by omega), if_neg (by omega),
      if_neg (by omega), if_pos hcodec, if_neg (by omega),
      if_neg (by rintro ⟨-, hlt⟩; omega)]
  rfl

/-- C6, witness: `OpenCVBackend(fps=30, width=640, height=480)`
validates cleanly. -/
theorem C6_amended_witness : opencvSample.validate_settings = [] :=
  C6_amended 30 640 480 none none "medium" opencvSample rfl
    (by omega) (by omega) (by omega) (by omega) (by omega)
    (by omega) (by omega) (by omega) (by decide)

/-! ### C8 — `write_frame` and frame dimensions -/

/-- `opencvSample` after a successful `open`. -/
def opencvOpenSample : OpenCVBackend :=
  { opencvSample with writer_allocated := true, is_opened := true }

/-- `ffmpegSample` after a successful `open`. -/
def ffmpegOpenSample : FFmpegCVBackend :=
  { ffmpegSample with writer_allocated := true, is_opened := true }

/-- A 100×100 three-channel BGR frame, smaller than the negotiated
640×480. -/
def smallFrame : Frame :=
  { ndim := 3, height := 100, width := 100, channels := 3, bgr := true }

/-- `shape[2]` is defined for a three-dimensional frame. -/
theorem shapeChannels_of_ndim3 (f : Frame) (h : f.ndim = 3) :
    shapeChannels f = some f.channels := by
  unfold shapeChannels
  rw [if_pos (by omega)]

/-- `OpenCVBackend.write_frame` on an open instance accepts a 3- or
4-channel three-dimensional frame regardless of its dimensions; the
array actually written always has the negotiated height/width, a
mismatched input being resized first (so never written as-is). -/
theorem opencv_write_frame_dims (b : OpenCVBackend) (f : Frame)
    (h1 : b.is_opened = true) (h2 : b.writer_allocated = true)
    (hndim : f.ndim = 3) (hch : f.channels = 3 ∨ f.channels = 4) :
    ∃ g, b.write_frame f true = .ok g ∧ g.height = b.height ∧ g.width = b.width ∧
      ((f.height, f.width) ≠ (b.height, b.width) → g ≠ f) := by
  unfold OpenCVBackend.write_frame
  rw [if_neg (by simp [h1, h2]), if_neg (by simp [hndim]),
      if_neg (not_not_intro (Or.inr hch))]
  by_cases hdim : (f.height, f.width) = (b.height, b.width)
  · rw [if_neg (not_not_intro hdim)]
    dsimp only
    rw [if_neg (by
      rintro ⟨-, hnone⟩
      rw [shapeChannels_of_ndim3 f hndim] at hnone
      simp at hnone)]
    rw [if_pos rfl]
    obtain ⟨hh, hw⟩ := Prod.ext_iff.mp hdim
    exact ⟨f, rfl, hh, hw, fun hne => absurd hdim hne⟩
  · rw [if_pos hdim]
    have hres : cvResize f b.width b.height =
        { f with width := b.width, height := b.height } := by
      unfold cvResize
      rw [if_neg (by rintro ⟨-, hc1⟩; rcases hch with h | h <;> omega)]
    rw [hres]
    dsimp only
    rw [if_neg (by
      rintro ⟨-, hnone⟩
      rw [shapeChannels_of_ndim3
        { f with width := b.width, height := b.height } hndim] at hnone
      simp at hnone)]
    rw [if_pos rfl]
    refine ⟨_, rfl, rfl, rfl, fun _ hgf => ?_⟩
    have hh : b.height = f.height := congrArg Frame.height hgf
    have hw : b.width = f.width := congrArg Frame.width hgf
    exact hdim (Prod.ext_iff.mpr ⟨hh.symm, hw.symm⟩)

/-- `OpenCVBackend.write_frame` with color conversion enabled (the
constructor default) raises `IndexError` on a mismatched single-channel
frame: the resize squeezes it to 2-D and line 219 then indexes
`shape[2]`. -/
theorem opencv_write_frame_one_channel_mismatch (b : OpenCVBackend) (f : Frame)
    (h1 : b.is_opened = true) (h2 : b.writer_allocated = true)
    (hndim : f.ndim = 3) (hch : f.channels = 1)
    (hdim : (f.height, f.width) ≠ (b.height, b.width))
    (hucc : b.use_color_conversion = true) (wk : Bool) :
    b.write_frame f wk = .error "IndexError" := by
  unfold OpenCVBackend.write_frame
  rw [if_neg (by simp [h1, h2]), if_neg (by simp [hndim]),
      if_neg (not_not_intro (Or.inl hch)), if_pos hdim]
  have hres : cvResize f b.width b.height =
      { ndim := 2, height := b.height, width := b.width, channels := 1,
        bgr := f.bgr } := by
    unfold cvResize
    rw [if_pos ⟨hndim, hch⟩]
  rw [hres]
  dsimp only
  rw [if_pos ⟨hucc, rfl⟩]

/-- `OpenCVBackend.write_frame` accepts a single-channel frame whose
dimensions already match: no resize happens, so `shape[2]` stays
defined. -/
theorem opencv_write_frame_one_channel_match (b : OpenCVBackend) (f : Frame)
    (h1 : b.is_opened = true) (h2 : b.writer_allocated = true)
    (hndim : f.ndim = 3) (hch : f.channels = 1)
    (hdim : (f.height, f.width) = (b.height, b.width)) :
    b.write_frame f true = .ok f := by
  unfold OpenCVBackend.write_frame
  rw [if_neg (by simp [h1, h2]), if_neg (by simp [hndim]),
      if_neg (not_not_intro (Or.inl hch)), if_neg (not_not_intro hdim)]
  dsimp only
  rw [if_neg (by
    rintro ⟨-, hnone⟩
    rw [shapeChannels_of_ndim3 f hndim] at hnone
    simp at hnone)]
  rw [if_pos rfl]

/-- `FFmpegCVBackend.write_frame` on an open instance accepts a
multi-channel three-dimensional frame regardless of its dimensions; the
array actually written always has the negotiated height/width, a
mismatched input being resized first (so never written as-is). -/
theorem ffmpegcv_write_frame_dims (b : FFmpegCVBackend) (f : Frame)
    (h1 : b.is_opened = true) (h2 : b.writer_allocated = true)
    (hndim : f.ndim = 3) (hch : f.channels ≠ 1) :
    ∃ g, b.write_frame f true = .ok g ∧ g.height = b.height ∧ g.width = b.width ∧
      ((f.height, f.width) ≠ (b.height, b.width) → g ≠ f) := by
  unfold FFmpegCVBackend.write_frame
  rw [if_neg (by simp [h1, h2]), if_neg (by simp [hndim])]
  by_cases hdim : (f.height, f.width) = (b.height, b.width)
  · rw [if_neg (not_not_intro hdim)]
    dsimp only
    rw [if_neg (by rw [shapeChannels_of_ndim3 f hndim]; simp)]
    obtain ⟨hh, hw⟩ := Prod.ext_iff.mp hdim
    by_cases hc : shapeChannels f = some 3
    · rw [if_pos hc, if_pos rfl]
      exact ⟨{ f with bgr := !f.bgr }, rfl, hh, hw, fun hne => absurd hdim hne⟩
    · rw [if_neg hc, if_pos rfl]
      exact ⟨f, rfl, hh, hw, fun hne => absurd hdim hne⟩
  · rw [if_pos hdim]
    have hres : cvResize f b.width b.height =
        { f with width := b.width, height := b.height } := by
      unfold cvResize
      rw [if_neg (by rintro ⟨-, hc1⟩; exact hch hc1)]
    rw [hres]
    dsimp only
    rw [if_neg (by
      rw [shapeChannels_of_ndim3
        { f with width := b.width, height := b.height } hndim]
      simp)]
    have key : ∀ g : Frame, g.height = b.height → g.width = b.width →
        (f.height, f.width) ≠ (b.height, b.width) → g ≠ f := by
      intro g hh hw _ hgf
      rw [hgf] at hh hw
      exact hdim (Prod.ext_iff.mpr ⟨hh, hw⟩)
    by_cases hc : shapeChannels
        { f with width := b.width, height := b.height } = some 3
    · rw [if_pos hc, if_pos rfl]
      exact ⟨_, rfl, rfl, rfl, key _ rfl rfl⟩
    · rw [if_neg hc, if_pos rfl]
      exact ⟨_, rfl, rfl, rfl, key _ rfl rfl⟩

/-- `FFmpegCVBackend.write_frame` raises `IndexError` on a mismatched
single-channel frame: the resize squeezes it to 2-D and line 335 then
indexes `shape[2]`. -/
theorem ffmpegcv_write_frame_one_channel_mismatch (b : FFmpegCVBackend)
    (f : Frame)
    (h1 : b.is_opened = true) (h2 : b.writer_allocated = true)
    (hndim : f.ndim = 3) (hch : f.channels = 1)
    (hdim : (f.height, f.width) ≠ (b.height, b.width)) (wk : Bool) :
    b.write_frame f wk = .error "IndexError" := by
  unfold FFmpegCVBackend.write_frame
  rw [if_neg (by simp [h1, h2]), if_neg (by simp [hndim]), if_pos hdim]
  have hres : cvResize f b.width b.height =
      { ndim := 2, height := b.height, width := b.width, channels := 1,
        bgr := f.bgr } := by
    unfold cvResize
    rw [if_pos ⟨hndim, hch⟩]
  rw [hres]
  dsimp only
  have hnone : (shapeChannels
      { ndim := 2, height := b.height, width := b.width, channels := 1,
        bgr := f.bgr }).isNone = true := rfl
  rw [if_pos hnone]

/-- `FFmpegCVBackend.write_frame` accepts a single-channel frame whose
dimensions already match: no resize happens, so `shape[2]` stays
defined and equals 1, skipping the BGR→RGB flip. -/
theorem ffmpegcv_write_frame_one_channel_match (b : FFmpegCVBackend)
    (f : Frame)
    (h1 : b.is_opened = true) (h2 : b.writer_allocated = true)
    (hndim : f.ndim = 3) (hch : f.channels = 1)
    (hdim : (f.height, f.width) = (b.height, b.width)) :
    b.write_frame f true = .ok f := by
  unfold FFmpegCVBackend.write_frame
  rw [if_neg (by simp [h1, h2]), if_neg (by simp [hndim]),
      if_neg (not_not_intro hdim)]
  dsimp only
  have hnn : ¬ ((shapeChannels f).isNone = true) := by
    rw [shapeChannels_of_ndim3 f hndim]; simp
  have hn3 : ¬ (shapeChannels f = some 3) := by
    rw [shapeChannels_of_ndim3 f hndim, hch]; simp
  rw [if_neg hnn, if_neg hn3, if_pos rfl]

/-- C8, counterexample.  The claim says a frame is accepted only when
its dimensions equal the negotiated width/height exactly.  Both
backends instead accept a mismatched frame and silently resize it
(`opencv_backend.py` lines 214-216, `ffmpegcv_backend.py` lines
328-331): writing a 100×100 frame to an open 640×480 instance succeeds
on both. -/
theorem C8_counterexample :
    (smallFrame.height, smallFrame.width) ≠
        (opencvOpenSample.height, opencvOpenSample.width) ∧
    opencvOpenSample.write_frame smallFrame true =
      .ok { ndim := 3, height := 480, width := 640, channels := 3, bgr := true } ∧
    (smallFrame.height, smallFrame.width) ≠
        (ffmpegOpenSample.height, ffmpegOpenSample.width) ∧
    ffmpegOpenSample.write_frame smallFrame true =
      .ok { ndim := 3, height := 480, width := 640, channels := 3, bgr := false } := by
  exact ⟨by decide, rfl, by decide, rfl⟩

/-- A 100×100 single-channel frame, smaller than the negotiated
640×480. -/
def grayFrame : Frame :=
  { ndim := 3, height := 100, width := 100, channels := 1, bgr := true }

/-- C8, amended.  For every open backend instance (either kind),
`write_frame` accepts a three-dimensional 3- or 4-channel frame
regardless of its dimensions, resizing a mismatched frame to the
negotiated width/height before writing — so the array actually written
always has exactly the negotiated dimensions and a mismatched frame is
never written as-is.  A single-channel frame is accepted only when its
dimensions already match: on a mismatch, `cv2.resize` squeezes it to
2-D and the following `frame.shape[2]` access raises `IndexError`
(unconditionally in the FFmpegCV backend; in the OpenCV backend
whenever `use_color_conversion` is enabled, as the constructor default
is). -/
theorem C8_amended (cv : OpenCVBackend) (ff : FFmpegCVBackend) (f : Frame)
    (hcv1 : cv.is_opened = true) (hcv2 : cv.writer_allocated = true)
    (hff1 : ff.is_opened = true) (hff2 : ff.writer_allocated = true)
    (hndim : f.ndim = 3) :
    (f.channels = 3 ∨ f.channels = 4 →
      (∃ g, cv.write_frame f true = .ok g ∧ g.height = cv.height ∧
         g.width = cv.width ∧
         ((f.height, f.width) ≠ (cv.height, cv.width) → g ≠ f)) ∧
      (∃ g, ff.write_frame f true = .ok g ∧ g.height = ff.height ∧
         g.width = ff.width ∧
         ((f.height, f.width) ≠ (ff.height, ff.width) → g ≠ f))) ∧
    (f.channels = 1 → cv.use_color_conversion = true →
      (f.height, f.width) ≠ (cv.height, cv.width) →
      ∀ wk : Bool, cv.write_frame f wk = .error "IndexError") ∧
    (f.channels = 1 → (f.height, f.width) ≠ (ff.height, ff.width) →
      ∀ wk : Bool, ff.write_frame f wk = .error "IndexError") ∧
    (f.channels = 1 → (f.height, f.width) = (cv.height, cv.width) →
      cv.write_frame f true = .ok f) ∧
    (f.channels = 1 → (f.height, f.width) = (ff.height, ff.width) →
      ff.write_frame f true = .ok f) :=
  ⟨fun hch =>
    ⟨opencv_write_frame_dims cv f hcv1 hcv2 hndim hch,
     ffmpegcv_write_frame_dims ff f hff1 hff2 hndim
       (by rcases hch with h | h <;> omega)⟩,
   fun hch hucc hdim wk =>
     opencv_write_frame_one_channel_mismatch cv f hcv1 hcv2 hndim hch hdim
       hucc wk,
   fun hch hdim wk =>
     ffmpegcv_write_frame_one_channel_mismatch ff f hff1 hff2 hndim hch hdim wk,
   fun hch hdim =>
     opencv_write_frame_one_channel_match cv f hcv1 hcv2 hndim hch hdim,
   fun hch hdim =>
     ffmpegcv_write_frame_one_channel_match ff f hff1 hff2 hndim hch hdim⟩

/-- C8, witness: the mismatched 100×100 three-channel frame is resized
and written by both open 640×480 instances, while the mismatched
100×100 single-channel frame raises `IndexError` on both. -/
theorem C8_amended_witness :
    (∃ g, opencvOpenSample.write_frame smallFrame true = .ok g ∧
       g.height = opencvOpenSample.height ∧ g.width = opencvOpenSample.width ∧
       ((smallFrame.height, smallFrame.width) ≠
          (opencvOpenSample.height, opencvOpenSample.width) → g ≠ smallFrame)) ∧
    (∃ g, ffmpegOpenSample.write_frame smallFrame true = .ok g ∧
       g.height = ffmpegOpenSample.height ∧ g.width = ffmpegOpenSample.width ∧
       ((smallFrame.height, smallFrame.width) ≠
          (ffmpegOpenSample.height, ffmpegOpenSample.width) → g ≠ smallFrame)) ∧
    opencvOpenSample.write_frame grayFrame true = .error "IndexError" ∧
    ffmpegOpenSample.write_frame grayFrame true = .error "IndexError" := by
  obtain ⟨-, hcvIdx, hffIdx, -, -⟩ :=
    C8_amended opencvOpenSample ffmpegOpenSample grayFrame rfl rfl rfl rfl rfl
  obtain ⟨h1, h2⟩ :=
    (C8_amended opencvOpenSample ffmpegOpenSample smallFrame rfl rfl rfl rfl
      rfl).1 (Or.inl rfl)
  exact ⟨h1, h2, hcvIdx rfl rfl (by decide) true, hffIdx rfl (by decide) true⟩

/-! ### C5 — aspect-ratio negotiation -/

/-- The aspect ratio `w / h` as the Python code computes it (float
division, modelled over `ℚ`). -/
def aspect (w h : Int) : ℚ := (w : ℚ) / (h : ℚ)

/-- C5, counterexample.  The claim's threshold is "aspect ratios differ
by less than 1%", but the code compares the absolute difference against
the constant `0.01` (`encoder.py` line 143).  For a 4000×1000 source
with target 4030×1000 the aspect ratios 4.0 and 4.03 differ by less
than 1% of either ratio, so the claim requires the target to be used
verbatim; the code's absolute difference is `0.03 ≥ 0.01`, so it takes
the fit-to-height branch and negotiates 4000×1000 instead. -/
theorem C5_counterexample :
    negotiate_dimensions 4000 1000 (some (4030, 1000)) = (4000, 1000) ∧
    ((4000 : Int), (1000 : Int)) ≠ ((4030 : Int), (1000 : Int)) ∧
    |(4000 : ℚ) / 1000 - (4030 : ℚ) / 1000| < (1 / 100) * ((4030 : ℚ) / 1000) ∧
    |(4000 : ℚ) / 1000 - (4030 : ℚ) / 1000| < (1 / 100) * ((4000 : ℚ) / 1000) := by
  refine ⟨?_, by decide, ?_, ?_⟩
  · have h3 : pyTrunc ((1000 : ℚ) * (4000 / 1000)) = 4000 := by
      unfold pyTrunc
      rw [if_pos (by norm_num)]
      norm_num
    simp only [negotiate_dimensions, get_resolution_for_aspect_ratio]
    push_cast
    rw [if_neg (by rw [abs_of_nonpos (by norm_num)]; norm_num),
        if_neg (by norm_num)]
    simp only [ensure_even_dimensions]
    rw [h3]
    norm_num
  · rw [abs_of_nonpos (by norm_num)]; norm_num
  · rw [abs_of_nonpos (by norm_num)]; norm_num

/-- C5, amended.  When a target resolution override is requested, the
negotiation uses the target verbatim when the absolute difference of
the two aspect ratios is below the constant `0.01` (not a relative 1%);
otherwise it keeps the target width when the original aspect exceeds
the target aspect (else the target height) and computes the other
dimension from the original aspect ratio with `int()` truncation; the
result is then forced even.  In particular a 1920×1000 source with
target 1280×720 negotiates to 1280×666. -/
theorem C5_amended (ow oh tw th : Int)
    (how : 0 < ow) (hoh : 0 < oh) (htw : 0 < tw) (hth : 0 < th) :
    (|aspect ow oh - aspect tw th| < 1 / 100 →
      negotiate_dimensions ow oh (some (tw, th)) = ensure_even_dimensions tw th) ∧
    (1 / 100 ≤ |aspect ow oh - aspect tw th| → aspect tw th < aspect ow oh →
      negotiate_dimensions ow oh (some (tw, th)) =
        ensure_even_dimensions tw ⌊(tw : ℚ) / aspect ow oh⌋) ∧
    (1 / 100 ≤ |aspect ow oh - aspect tw th| → aspect ow oh ≤ aspect tw th →
      negotiate_dimensions ow oh (some (tw, th)) =
        ensure_even_dimensions ⌊(th : ℚ) * aspect ow oh⌋ th) ∧
    negotiate_dimensions 1920 1000 (some (1280, 720)) = (1280, 666) := by
  have hoa : (0 : ℚ) < (ow : ℚ) / (oh : ℚ) :=
    div_pos (by exact_mod_cast how) (by exact_mod_cast hoh)
  refine ⟨?_, ?_, ?_, ?_⟩
  · intro h
    simp only [aspect] at h
    simp only [negotiate_dimensions, get_resolution_for_aspect_ratio]
    rw [if_pos h]
  · intro h hlt
    simp only [aspect] at h hlt ⊢
    simp only [negotiate_dimensions, get_resolution_for_aspect_ratio]
    rw [if_neg (not_lt.mpr h), if_pos hlt]
    rw [show pyTrunc ((tw : ℚ) / ((ow : ℚ) / (oh : ℚ))) =
        ⌊(tw : ℚ) / ((ow : ℚ) / (oh : ℚ))⌋ from by
      unfold pyTrunc
      rw [if_pos (le_of_lt (div_pos (by exact_mod_cast htw) hoa))]]
  · intro h hle
    simp only [aspect] at h hle ⊢
    simp only [negotiate_dimensions, get_resolution_for_aspect_ratio]
    rw [if_neg (not_lt.mpr h), if_neg (not_lt.mpr hle)]
    rw [show pyTrunc ((th : ℚ) * ((ow : ℚ) / (oh : ℚ))) =
        ⌊(th : ℚ) * ((ow : ℚ) / (oh : ℚ))⌋ from by
      unfold pyTrunc
      rw [if_pos (le_of_lt (mul_pos (by exact_mod_cast hth) hoa))]]
  · have h3 : pyTrunc ((1280 : ℚ) / (1920 / 1000)) = 666 := by
      unfold pyTrunc
      rw [if_pos (by norm_num), Int.floor_eq_iff]
      norm_num
    simp only [negotiate_dimensions, get_resolution_for_aspect_ratio]
    push_cast
    rw [if_neg (by rw [abs_of_nonneg (by norm_num)]; norm_num),
        if_pos (by norm_num)]
    simp only [ensure_even_dimensions]
    rw [h3]
    norm_num

/-- C5, witness: the 1920×1000 source with a 1280×720 target. -/
theorem C5_amended_witness :
    negotiate_dimensions 1920 1000 (some (1280, 720)) = (1280, 666) :=
  (C5_amended 1920 1000 1280 720 (by norm_num) (by norm_num) (by norm_num)
    (by norm_num)).2.2.2

/-! ### C3 — backend acquisition fallback order -/

/-- A successful `find?` splits its list at the first match: everything
before the hit fails the predicate. -/
theorem find?_split {α : Type} (p : α → Bool) :
    ∀ (l : List α) (a : α), l.find? p = some a →
      ∃ l1 l2, l = l1 ++ a :: l2 ∧ (∀ x ∈ l1, p x = false) ∧ p a = true := by
  intro l
  induction l with
  | nil => intro a h; simp at h
  | cons x xs ih =>
    intro a h
    by_cases hx : p x
    · rw [List.find?_cons_of_pos _ hx] at h
      obtain rfl : x = a := by simpa using h
      exact ⟨[], xs, rfl, by simp, hx⟩
    · rw [List.find?_cons_of_neg _ (by simpa using hx)] at h
      obtain ⟨l1, l2, heq, hall, hpa⟩ := ih a h
      refine ⟨x :: l1, l2, by simp [heq], ?_, hpa⟩
      intro y hy
      rcases List.mem_cons.mp hy with rfl | hy'
      · simpa using hx
      · exact hall y hy'

/-- The name inside a successful `create_backend` result is the
requested name. -/
theorem create_backend_some (reg : Registry) (n m : String)
    (h : reg.create_backend n = some m) : m = n := by
  unfold Registry.create_backend at h
  cases hd : dictGet reg.backends n with
  | none => rw [hd] at h; simp at h
  | some cls =>
    rw [hd] at h
    by_cases ha : reg.is_backend_available n
    · by_cases hcc : cls.constructs
      · simp [ha, hcc] at h
        exact h.symm
      · simp [ha, hcc] at h
    · simp [ha] at h

/-- A `create_backend` call that returns an instance returns the
requested name. -/
theorem create_backend_of_isSome (reg : Registry) (n : String)
    (h : (reg.create_backend n).isSome = true) :
    reg.create_backend n = some n := by
  cases hc : reg.create_backend n with
  | none => rw [hc] at h; simp at h
  | some m => exact congrArg some (create_backend_some reg n m hc)

/-- `_create_backend_instance` when the primary backend fails and
fallback is enabled: the remaining behavior is the walk over the
non-primary available backends. -/
theorem create_backend_instance_of_primary_failed (reg : Registry)
    (primary : String) (hp : reg.create_backend primary = none) :
    create_backend_instance reg primary true =
      match (reg.get_available_backends.filter (fun p => p.1 != primary)).find?
          (fun p => (reg.create_backend p.1).isSome) with
      | some p => .ok p.1
      | none => .error (.allFailed
          (reg.get_available_backends.map (fun q => q.1))) := by
  unfold create_backend_instance
  rw [hp]
  rfl

/-- Registry state driving the C3 counterexample: `"B"` (priority 100)
was registered before `"A"` (priority 90); both are available and both
construct. -/
def regFallbackSample : Registry :=
  { backends := [("B", ⟨some 100, true, true⟩), ("A", ⟨some 90, true, true⟩)],
    cache := [] }

/-- C3, counterexample.  The claim says the fallback walks the other
available backends in ascending priority order.  The code walks
`get_available_backends()` in registration order (`generator.py` line
214): with primary `"P"` unknown and fallback enabled, it returns the
first-registered `"B"` even though `"A"` has the numerically smaller
priority, is available and constructs. -/
theorem C3_counterexample :
    create_backend_instance regFallbackSample "P" true = .ok "B" ∧
    regFallbackSample.get_backend_priority "A" <
      regFallbackSample.get_backend_priority "B" ∧
    regFallbackSample.is_backend_available "A" = true ∧
    regFallbackSample.create_backend "A" = some "A" ∧
    ("B" : String) ≠ "A" := by
  exact ⟨rfl, by decide, rfl, rfl, by decide⟩

/-- C3, amended.  When the primary backend fails to instantiate and
fallback is enabled, the generator walks the registry's other available
backends in registration order (the iteration order of
`get_available_backends()`), skipping the primary's name, and returns
the first that constructs — every available non-primary backend
registered earlier failed; if none constructs, the job fails with the
aggregate error listing the available backend names. -/
theorem C3_amended (reg : Registry) (primary : String)
    (hp : reg.create_backend primary = none) :
    (∀ n, create_backend_instance reg primary true = .ok n →
       ∃ cls pre post,
         reg.get_available_backends.filter (fun q => q.1 != primary) =
           pre ++ (n, cls) :: post ∧
         (∀ q ∈ pre, reg.create_backend q.1 = none) ∧
         reg.create_backend n = some n ∧ n ≠ primary) ∧
    ((∀ q ∈ reg.get_available_backends, q.1 ≠ primary →
        reg.create_backend q.1 = none) →
      create_backend_instance reg primary true =
        .error (.allFailed (reg.get_available_backends.map (fun q => q.1)))) := by
  constructor
  · intro n hn
    rw [create_backend_instance_of_primary_failed reg primary hp] at hn
    cases hfind : (reg.get_available_backends.filter
        (fun p => p.1 != primary)).find?
        (fun p => (reg.create_backend p.1).isSome) with
    | none => rw [hfind] at hn; simp at hn
    | some q =>
      rw [hfind] at hn
      simp at hn
      subst hn
      obtain ⟨l1, l2, heq, hall, hpq⟩ := find?_split _ _ q hfind
      have hqmem : q ∈ reg.get_available_backends.filter
          (fun p => p.1 != primary) := by
        rw [heq]; exact List.mem_append_right _ (List.mem_cons_self q l2)
      have hne : q.1 ≠ primary := by
        have := (List.mem_filter.mp hqmem).2
        simpa using this
      refine ⟨q.2, l1, l2, ?_, ?_, ?_, hne⟩
      · rw [heq, Prod.mk.eta]
      · intro x hx
        have hfalse := hall x hx
        cases hcx : reg.create_backend x.1 with
        | none => rfl
        | some m => rw [hcx] at hfalse; simp at hfalse
      · exact create_backend_of_isSome reg q.1 hpq
  · intro hall
    rw [create_backend_instance_of_primary_failed reg primary hp]
    have hfind : (reg.get_available_backends.filter
        (fun p => p.1 != primary)).find?
        (fun p => (reg.create_backend p.1).isSome) = none := by
      rw [List.find?_eq_none]
      intro x hx
      obtain ⟨hmem, hbne⟩ := List.mem_filter.mp hx
      have hxne : x.1 ≠ primary := by simpa using hbne
      rw [hall x hmem hxne]
      simp
    rw [hfind]

/-- C3, witness: expanding the successful fallback on the two-backend
registry. -/
theorem C3_amended_witness :
    ∃ cls pre post,
      regFallbackSample.get_available_backends.filter (fun q => q.1 != "P") =
        pre ++ ("B", cls) :: post ∧
      (∀ q ∈ pre, regFallbackSample.create_backend q.1 = none) ∧
      regFallbackSample.create_backend "B" = some "B" ∧ ("B" : String) ≠ "P" :=
  (C3_amended regFallbackSample "P" rfl).1 "B" rfl

/-! ### C4 — `get_best_backend` -/

/-- Two distinct members of a list form a pair sublist in one order or
the other. -/
theorem pair_sublist_mem {α : Type} : ∀ (l : List α) (a b : α),
    a ∈ l → b ∈ l → a ≠ b → List.Sublist [a, b] l ∨ List.Sublist [b, a] l := by
  intro l
  induction l with
  | nil => intro a b ha _ _; simp at ha
  | cons x xs ih =>
    intro a b ha hb hab
    rcases List.mem_cons.mp ha with rfl | ha'
    · have hb' : b ∈ xs := by
        rcases List.mem_cons.mp hb with rfl | h
        · exact absurd rfl hab
        · exact h
      exact Or.inl (List.Sublist.cons₂ a (List.singleton_sublist.mpr hb'))
    · rcases List.mem_cons.mp hb with rfl | hb'
      · exact Or.inr (List.Sublist.cons₂ b (List.singleton_sublist.mpr ha'))
      · rcases ih a b ha' hb' hab with h | h
        · exact Or.inl (List.Sublist.cons _ h)
        · exact Or.inr (List.Sublist.cons _ h)

/-- Registry state of the claim's scenario: `A` registered first with
priority 90 but unavailable, `B` registered second with priority 100
and available. -/
def regScenario : Registry :=
  { backends := [("A", ⟨some 90, false, true⟩), ("B", ⟨some 100, true, true⟩)],
    cache := [] }

/-- C4.  For every registry state (with distinct registered names, as a
Python dict guarantees), `get_best_backend()` returns `none` exactly
when no registered backend is available, and otherwise returns an
available registered backend whose priority is minimal among the
available backends, registered no later than any other available
backend of the same priority (Python's stable `sorted` breaks priority
ties by registration order); in the scenario with `A` (priority 90,
unavailable) registered before `B` (priority 100, available) it returns
`B`. -/
theorem C4_get_best_backend (reg : Registry)
    (hnodup : reg.list_backends.Nodup) :
    (reg.get_best_backend = none ↔ reg.get_available_backends = []) ∧
    (∀ b, reg.get_best_backend = some b →
      reg.is_backend_available b = true ∧ b ∈ reg.list_backends ∧
      (∀ q ∈ reg.get_available_backends,
        reg.get_backend_priority b ≤ reg.get_backend_priority q.1) ∧
      (∀ q ∈ reg.get_available_backends,
        reg.get_backend_priority q.1 = reg.get_backend_priority b → q.1 ≠ b →
          List.Sublist [b, q.1] reg.list_backends)) ∧
    regScenario.get_best_backend = some "B" := by
  have htrans : ∀ a b c : String,
      decide (reg.get_backend_priority a ≤ reg.get_backend_priority b) = true →
      decide (reg.get_backend_priority b ≤ reg.get_backend_priority c) = true →
      decide (reg.get_backend_priority a ≤ reg.get_backend_priority c) = true := by
    intro a b c hab hbc
    rw [decide_eq_true_eq] at hab hbc ⊢
    exact le_trans hab hbc
  have htotal : ∀ a b : String,
      (decide (reg.get_backend_priority a ≤ reg.get_backend_priority b) ||
       decide (reg.get_backend_priority b ≤ reg.get_backend_priority a)) = true := by
    intro a b
    rcases le_total (reg.get_backend_priority a) (reg.get_backend_priority b)
      with h | h
    · simp [h]
    · simp [h]
  have hsub : List.Sublist (reg.get_available_backends.map (fun p => p.1)) reg.list_backends :=
    List.Sublist.map _ (List.filter_sublist _)
  have hnd : (reg.get_available_backends.map (fun p => p.1)).Nodup :=
    hnodup.sublist hsub
  have hperm := List.mergeSort_perm (reg.get_available_backends.map (fun p => p.1))
    (fun a b => decide (reg.get_backend_priority a ≤ reg.get_backend_priority b))
  refine ⟨?_, ?_, ?_⟩
  · simp only [Registry.get_best_backend]
    by_cases hemp : reg.get_available_backends.isEmpty
    · rw [if_pos hemp]
      exact iff_of_true rfl (List.isEmpty_iff.mp hemp)
    · rw [if_neg hemp]
      refine iff_of_false ?_ ?_
      · rw [List.head?_eq_none_iff]
        intro hms
        rw [hms] at hperm
        have hnil : reg.get_available_backends.map (fun p => p.1) = [] :=
          hperm.symm.eq_nil
        exact hemp (by
          rw [List.isEmpty_iff]
          exact List.map_eq_nil_iff.mp hnil)
      · intro h
        exact hemp (by rw [List.isEmpty_iff]; exact h)
  · intro b hb
    simp only [Registry.get_best_backend] at hb
    by_cases hemp : reg.get_available_backends.isEmpty
    · rw [if_pos hemp] at hb; simp at hb
    · rw [if_neg hemp] at hb
      obtain ⟨t, hms⟩ : ∃ t,
          (reg.get_available_backends.map (fun p => p.1)).mergeSort
            (fun a b =>
              decide (reg.get_backend_priority a ≤ reg.get_backend_priority b)) =
            b :: t := by
        cases hcase : (reg.get_available_backends.map (fun p => p.1)).mergeSort
            (fun a b =>
              decide (reg.get_backend_priority a ≤ reg.get_backend_priority b)) with
        | nil => rw [hcase] at hb; simp at hb
        | cons x xs =>
          rw [hcase] at hb
          simp at hb
          exact ⟨xs, by rw [← hb]⟩
      rw [hms] at hperm
      have hbnames : b ∈ reg.get_available_backends.map (fun p => p.1) :=
        hperm.mem_iff.mp (List.mem_cons_self b t)
      have hbavail : reg.is_backend_available b = true := by
        obtain ⟨q, hq, hqb⟩ := List.mem_map.mp hbnames
        have := (List.mem_filter.mp hq).2
        rw [← hqb]
        simpa using this
      have hsorted := List.sorted_mergeSort htrans htotal
        (reg.get_available_backends.map (fun p => p.1))
      rw [hms] at hsorted
      refine ⟨hbavail, hsub.subset hbnames, ?_, ?_⟩
      · intro q hq
        have hqn : q.1 ∈ reg.get_available_backends.map (fun p => p.1) :=
          List.mem_map_of_mem _ hq
        rcases List.mem_cons.mp (hperm.mem_iff.mpr hqn) with heq | hmem
        · rw [heq]
        · have := (List.pairwise_cons.mp hsorted).1 q.1 hmem
          rw [decide_eq_true_eq] at this
          exact this
      · intro q hq hpeq hne
        have hqn : q.1 ∈ reg.get_available_backends.map (fun p => p.1) :=
          List.mem_map_of_mem _ hq
        rcases pair_sublist_mem _ b q.1 hbnames hqn (Ne.symm hne) with h | h
        · exact h.trans hsub
        · exfalso
          have hle : decide (reg.get_backend_priority q.1 ≤
              reg.get_backend_priority b) = true := by
            rw [decide_eq_true_eq, hpeq]
          have hpair := List.pair_sublist_mergeSort htrans htotal hle h
          rw [hms] at hpair
          have hndms : (b :: t).Nodup := by
            rw [← hms]
            exact (List.mergeSort_perm _ _).nodup_iff.mpr hnd
          have hbt : b ∉ t := (List.nodup_cons.mp hndms).1
          rcases List.sublist_cons_iff.mp hpair with h2 | ⟨r, hr, -⟩
          · exact hbt (h2.subset
              (List.mem_cons_of_mem _ (List.mem_cons_self _ _)))
          · have : q.1 = b := by
              have := congrArg (fun l => l.head?) hr
              simpa using this
            exact hne this
  · simp only [Registry.get_best_backend]
    rw [show regScenario.get_available_backends =
        [("B", ⟨some 100, true, true⟩)] from rfl]
    simp [List.mergeSort_singleton]

/-- C4, witness: the scenario registry, whose registered names are
distinct. -/
theorem C4_get_best_backend_witness :
    regScenario.get_best_backend = some "B" :=
  (C4_get_best_backend regScenario (by decide)).2.2

end TimelapseGen
